import Mathlib

/-!
# Verification of `benchmark.py` (JPGBMR/system-health)

Shallow embedding of the system-health reporting script.  Numeric metric
values and thresholds are modelled as rationals (`ℚ`); the Python source
performs only strict comparisons and exact small-integer arithmetic on
them, and on every attainable aggregation mean (k/3 for k = 3..9) the
IEEE-double comparison against the literals 2.67 and 1.67 agrees with the
exact rational comparison, so the rational model is faithful on the whole
reachable domain.  Grades are the literal strings "A", "B", "C" exactly as
the source returns them.
-/

namespace SystemHealth

/-- Log severity levels of the Python `logging` module (the source only
ever emits INFO records, through `logger.info`). -/
inductive LogLevel where
  | DEBUG
  | INFO
  | WARNING
  | ERROR
  deriving DecidableEq, Repr

/-- Source lines 54-60: the helper function grading one metric value
against a threshold pair, by strict less-than comparisons. -/
def grade (value : ℚ) (thresholds : ℚ × ℚ) : String :=
  if value < thresholds.1 then "A"
  else if value < thresholds.2 then "B"
  else "C"

/-- Source line 78: the score dict `{"A": 3, "B": 2, "C": 1}`.  The dict
lookup raises on any other key; in the program it is only ever applied to
outputs of `grade`, which lie in {"A","B","C"} (see `grade_mem_range`),
so the final default branch is unreachable. -/
def grade_mapping (g : String) : ℚ :=
  if g = "A" then 3 else if g = "B" then 2 else if g = "C" then 1 else 0

/-- Source line 79: the arithmetic mean of the three grade scores. -/
def average_score (g1 g2 g3 : String) : ℚ :=
  (grade_mapping g1 + grade_mapping g2 + grade_mapping g3) / 3

/-- Source lines 80-85: overall grade from the average score, compared
against the decimal literals 2.67 = 267/100 and 1.67 = 167/100. -/
def overall_grade (g1 g2 g3 : String) : String :=
  if average_score g1 g2 g3 ≥ 267/100 then "A"
  else if average_score g1 g2 g3 ≥ 167/100 then "B"
  else "C"

/-- Modelled from the spec (section 4.2): the score table {A:3, B:2, C:1}
in the spec's words. -/
def score_spec (g : String) : ℚ :=
  if g = "A" then 3 else if g = "B" then 2 else 1

/-- Modelled from the spec (section 4.2 contract): the Aggregator as the
spec words it — map each grade to a score via {A:3, B:2, C:1}, take the
arithmetic mean, and compare against the decimal cut points 2.67 and
1.67, highest bucket first.  Used to check refinement against the
source-derived `overall_grade`. -/
def aggregate_spec (g1 g2 g3 : String) : String :=
  let mean : ℚ := (score_spec g1 + score_spec g2 + score_spec g3) / 3
  if mean ≥ (2.67 : ℚ) then "A" else if mean ≥ (1.67 : ℚ) then "B" else "C"

/-- Hypothetical variant of the Aggregator with the exact fractions 8/3
and 5/3 as cut points instead of the decimal literals; the source does
NOT use this (the claims contrast the two behaviours). -/
def aggregate_exact_thirds (g1 g2 g3 : String) : String :=
  let mean : ℚ := average_score g1 g2 g3
  if mean ≥ (8 : ℚ)/3 then "A" else if mean ≥ (5 : ℚ)/3 then "B" else "C"

/-- Calendar timestamp as delivered by Python `datetime.datetime.now()`,
restricted to the fields the program formats. -/
structure DateTime where
  year : ℕ
  month : ℕ
  day : ℕ
  hour : ℕ
  minute : ℕ
  second : ℕ
  deriving DecidableEq, Repr

/-- Left-pad the decimal digits of `n` with zeros to width `w`. -/
def padZero (w n : ℕ) : String :=
  let s := toString n
  String.mk (List.replicate (w - s.length) '0') ++ s

/-- Directives of the `strftime` format strings the source uses: `%Y`,
`%m`, `%d`, `%H`, `%M`, `%S`, and literal text between them. -/
inductive Directive where
  | Y
  | m
  | d
  | H
  | M
  | S
  | lit (s : String)

/-- Expansion of one `strftime` directive at a given timestamp. -/
def formatDirective (t : DateTime) : Directive → String
  | .Y => padZero 4 t.year
  | .m => padZero 2 t.month
  | .d => padZero 2 t.day
  | .H => padZero 2 t.hour
  | .M => padZero 2 t.minute
  | .S => padZero 2 t.second
  | .lit s => s

/-- Python `t.strftime(fmt)` with `fmt` already parsed into directives. -/
def strftime (t : DateTime) (fmt : List Directive) : String :=
  String.join (fmt.map (formatDirective t))

/-- Source line 8: `datetime.datetime.now().strftime("%Y%d%m")` — note
day before month. -/
def current_date (t : DateTime) : String :=
  strftime t [.Y, .d, .m]

/-- Source line 9: the log file name built from `current_date`. -/
def log_filename (t : DateTime) : String :=
  current_date t ++ "_system_health.log"

/-- Modelled from the spec (section 6): file name
`<YYYYDDMM>_system_health.log`, the eight date digits in year, day,
month order. -/
def log_filename_spec (t : DateTime) : String :=
  padZero 4 t.year ++ padZero 2 t.day ++ padZero 2 t.month ++ "_system_health.log"

/-- Source line 41: the format string `%Y-%m-%d %H:%M:%S` of the report
generation timestamp. -/
def report_generated_fmt : List Directive :=
  [.Y, .lit "-", .m, .lit "-", .d, .lit " ", .H, .lit ":", .M, .lit ":", .S]

/-- Rendering of a Python float into the report text.  The claims under
verification never inspect the digit string of a metric value, so the
decimal rendering of floats is abstracted as rational rendering. -/
def str_float (q : ℚ) : String :=
  toString q

/-- Source lines 33-89, pure view: the thirteen records `generate_report`
emits through `logger.info`, in source order, with their severity
levels, as a function of the timestamp and the three sampled metric
values. -/
def report_lines (now : DateTime) (cpu_usage mem_usage disk_usage : ℚ) :
    List (LogLevel × String) :=
  let grade_cpu := grade cpu_usage (30, 60)
  let grade_mem := grade mem_usage (50, 75)
  let grade_disk := grade disk_usage (40, 70)
  [(.INFO, "===== System Health Report ====="),
   (.INFO, "Report generated on: " ++ strftime now report_generated_fmt),
   (.INFO, "System Metrics:"),
   (.INFO, "CPU Usage: " ++ str_float cpu_usage ++ "%"),
   (.INFO, "Memory Usage: " ++ str_float mem_usage ++ "%"),
   (.INFO, "Disk Usage: " ++ str_float disk_usage ++ "%"),
   (.INFO, "Metric Grades:"),
   (.INFO, "CPU Grade: " ++ grade_cpu),
   (.INFO, "Memory Grade: " ++ grade_mem),
   (.INFO, "Disk Grade: " ++ grade_disk),
   (.INFO, "Overall System Grade:"),
   (.INFO, "Final Grade: " ++ overall_grade grade_cpu grade_mem grade_disk),
   (.INFO, "===== End of Report =====")]

/-- File system state: the lines currently stored under each file name. -/
def FileState : Type := String → List String

/-- Source line 25: the call `logging.FileHandler(log_filename, mode="w")`
(the mode argument is a one-character string) — opening a handler
truncates the named file when the mode is the literal "w" of the source,
and leaves it intact in append mode "a". -/
def file_handler_open (mode : String) (fs : FileState) (name : String) : FileState :=
  fun n => if n = name then (if mode = "w" then [] else fs name) else fs n

/-- Sequential writes of a list of lines to one file. -/
def emit_lines (fs : FileState) (name : String) (lines : List String) : FileState :=
  fun n => if n = name then fs n ++ lines else fs n

/-- One full process run on file state `fs`: module initialisation opens
the file handler for `log_filename` with the mode "w" of the source, then
`generate_report` writes the thirteen report lines. -/
def run_report_cycle (fs : FileState) (t : DateTime)
    (cpu_usage mem_usage disk_usage : ℚ) : FileState :=
  emit_lines (file_handler_open "w" fs (log_filename t)) (log_filename t)
    ((report_lines t cpu_usage mem_usage disk_usage).map Prod.snd)

/-- Source lines 33-89, effectful view: `generate_report` with fallible
metric acquisition and a fallible sink, sequenced exactly as in the
source (two sink writes, then the three metric reads, then the remaining
writes).  The source contains no try/except, so every step is a plain
monadic bind: the first failure propagates. -/
def generate_report_exc {ε : Type} (now : DateTime) (cpu mem disk : Except ε ℚ)
    (sink : String → Except ε Unit) : Except ε Unit := do
  sink "===== System Health Report ====="
  sink ("Report generated on: " ++ strftime now report_generated_fmt)
  let cpu_usage ← cpu
  let mem_usage ← mem
  let disk_usage ← disk
  sink "System Metrics:"
  sink ("CPU Usage: " ++ str_float cpu_usage ++ "%")
  sink ("Memory Usage: " ++ str_float mem_usage ++ "%")
  sink ("Disk Usage: " ++ str_float disk_usage ++ "%")
  let grade_cpu := grade cpu_usage (30, 60)
  let grade_mem := grade mem_usage (50, 75)
  let grade_disk := grade disk_usage (40, 70)
  sink "Metric Grades:"
  sink ("CPU Grade: " ++ grade_cpu)
  sink ("Memory Grade: " ++ grade_mem)
  sink ("Disk Grade: " ++ grade_disk)
  sink "Overall System Grade:"
  sink ("Final Grade: " ++ overall_grade grade_cpu grade_mem grade_disk)
  sink "===== End of Report ====="

/-! ## Shared helper lemmas -/

/-- Every output of `grade` is one of the three letter strings. -/
theorem grade_mem_range (value : ℚ) (t : ℚ × ℚ) :
    grade value t = "A" ∨ grade value t = "B" ∨ grade value t = "C" := by
  unfold grade
  split
  · exact Or.inl rfl
  · split
    · exact Or.inr (Or.inl rfl)
    · exact Or.inr (Or.inr rfl)

theorem grade_mapping_A : grade_mapping "A" = 3 := rfl

theorem grade_mapping_B : grade_mapping "B" = 2 := rfl

theorem grade_mapping_C : grade_mapping "C" = 1 := rfl

theorem score_spec_A : score_spec "A" = 3 := rfl

theorem score_spec_B : score_spec "B" = 2 := rfl

theorem score_spec_C : score_spec "C" = 1 := rfl

/-- The overall grade only depends on the average score. -/
theorem overall_grade_eq_of_avg (a b c d e f : String)
    (h : average_score a b c = average_score d e f) :
    overall_grade a b c = overall_grade d e f := by
  unfold overall_grade
  rw [h]

/-! ## Claim theorems -/

/-- C1: for every value and every threshold pair (low, high) with
low < high, `grade` returns "A" when value < low, else "B" when
value < high, else "C"; a value equal to `low` yields "B" and a value
equal to `high` yields "C" (strict less-than edge policy); and the
report applies `grade` with the fixed pairs CPU = (30, 60),
Memory = (50, 75), Disk = (40, 70), visible at positions 7, 8, 9 of the
emitted record list. -/
theorem grade_if_chain_and_fixed_pairs (value low high : ℚ) (now : DateTime)
    (c m d : ℚ) (h : low < high) :
    grade value (low, high)
      = (if value < low then "A" else if value < high then "B" else "C")
    ∧ grade low (low, high) = "B"
    ∧ grade high (low, high) = "C"
    ∧ (report_lines now c m d)[7]?
      = some (LogLevel.INFO, "CPU Grade: " ++ grade c (30, 60))
    ∧ (report_lines now c m d)[8]?
      = some (LogLevel.INFO, "Memory Grade: " ++ grade m (50, 75))
    ∧ (report_lines now c m d)[9]?
      = some (LogLevel.INFO, "Disk Grade: " ++ grade d (40, 70)) := by
  refine ⟨rfl, ?_, ?_, rfl, rfl, rfl⟩
  · simp [grade, lt_irrefl, h]
  · simp [grade, lt_irrefl, not_lt.2 h.le]

/-- Witness for C1 at the CPU pair (30, 60). -/
theorem grade_if_chain_and_fixed_pairs_witness :
    (30 : ℚ) < 60
    ∧ grade (30 : ℚ) (30, 60) = "B"
    ∧ grade (60 : ℚ) (30, 60) = "C" := by
  have h := grade_if_chain_and_fixed_pairs 45 30 60 ⟨2026, 10, 12, 0, 0, 0⟩
    45 55 45 (by norm_num)
  exact ⟨by norm_num, h.2.1, h.2.2.1⟩

/-- C2: on grade triples, the source aggregation coincides with the
spec-worded one (score table {A:3, B:2, C:1}, arithmetic mean, cut
points the decimal literals 2.67 = 267/100 and 1.67 = 167/100); and it
differs from the exact-thirds variant with cuts 8/3 and 5/3, which would
grade two A records and one B record as "A" where the source yields
"B". -/
theorem overall_grade_refines_spec (g1 g2 g3 : String)
    (h1 : g1 = "A" ∨ g1 = "B" ∨ g1 = "C")
    (h2 : g2 = "A" ∨ g2 = "B" ∨ g2 = "C")
    (h3 : g3 = "A" ∨ g3 = "B" ∨ g3 = "C") :
    overall_grade g1 g2 g3 = aggregate_spec g1 g2 g3
    ∧ (2.67 : ℚ) = 267/100 ∧ (1.67 : ℚ) = 167/100
    ∧ overall_grade "A" "A" "B" = "B"
    ∧ aggregate_exact_thirds "A" "A" "B" = "A" := by
  rcases h1 with h1 | h1 | h1 <;> rcases h2 with h2 | h2 | h2 <;>
    rcases h3 with h3 | h3 | h3 <;>
    subst h1 <;> subst h2 <;> subst h3 <;>
    norm_num [overall_grade, aggregate_spec, aggregate_exact_thirds, average_score,
      grade_mapping_A, grade_mapping_B, grade_mapping_C,
      score_spec_A, score_spec_B, score_spec_C]

/-- Witness for C2 at the triple (A, A, B). -/
theorem overall_grade_refines_spec_witness :
    (("A" : String) = "A" ∨ ("A" : String) = "B" ∨ ("A" : String) = "C")
    ∧ overall_grade "A" "A" "B" = aggregate_spec "A" "A" "B" := by
  have h := overall_grade_refines_spec "A" "A" "B"
    (Or.inl rfl) (Or.inl rfl) (Or.inr (Or.inl rfl))
  exact ⟨Or.inl rfl, h.1⟩

/-- C3, counterexample: the aggregation of two A grades and one B grade
(scores {3, 3, 2}, mean 8/3) returns "B", not "A" as the claim states —
the attainable mean 8/3 does not meet the cut point 2.67. -/
theorem two_A_one_B_grades_B_not_A :
    overall_grade "A" "A" "B" = "B" ∧ overall_grade "A" "A" "B" ≠ "A" := by
  have h : overall_grade "A" "A" "B" = "B" := by
    norm_num [overall_grade, average_score, grade_mapping_A, grade_mapping_B]
  refine ⟨h, ?_⟩
  rw [h]
  decide

/-- C3, amended: the cut point 2.67 lies strictly above the attainable
mean 8/3 of the score multiset {3, 3, 2}, so two A grades and one B
grade aggregate to "B"; the top bucket is reached at the all-A triple,
whose mean 3 does meet the cut. -/
theorem cut_point_above_attainable_mean :
    average_score "A" "A" "B" = 8/3
    ∧ (8 : ℚ)/3 < 267/100
    ∧ overall_grade "A" "A" "B" = "B"
    ∧ overall_grade "A" "A" "A" = "A" := by
  norm_num [overall_grade, average_score, grade_mapping_A, grade_mapping_B]

/-- C4: on grade triples the overall grade is determined by the integer
score sum s: "A" exactly when s = 9 (equivalently, all three grades are
A), "B" exactly when 6 ≤ s ≤ 8, and "C" exactly when s ≤ 5; in
particular two A records with one B record give "B", and two B records
with one C record give "C". -/
theorem overall_grade_sum_characterisation (g1 g2 g3 : String)
    (h1 : g1 = "A" ∨ g1 = "B" ∨ g1 = "C")
    (h2 : g2 = "A" ∨ g2 = "B" ∨ g2 = "C")
    (h3 : g3 = "A" ∨ g3 = "B" ∨ g3 = "C") :
    ((overall_grade g1 g2 g3 = "A") ↔
      grade_mapping g1 + grade_mapping g2 + grade_mapping g3 = 9)
    ∧ ((overall_grade g1 g2 g3 = "A") ↔ (g1 = "A" ∧ g2 = "A" ∧ g3 = "A"))
    ∧ ((overall_grade g1 g2 g3 = "B") ↔
      (6 ≤ grade_mapping g1 + grade_mapping g2 + grade_mapping g3
        ∧ grade_mapping g1 + grade_mapping g2 + grade_mapping g3 ≤ 8))
    ∧ ((overall_grade g1 g2 g3 = "C") ↔
      grade_mapping g1 + grade_mapping g2 + grade_mapping g3 ≤ 5)
    ∧ overall_grade "A" "A" "B" = "B"
    ∧ overall_grade "B" "B" "C" = "C" := by
  rcases h1 with h1 | h1 | h1 <;> rcases h2 with h2 | h2 | h2 <;>
    rcases h3 with h3 | h3 | h3 <;>
    subst h1 <;> subst h2 <;> subst h3 <;>
    norm_num [overall_grade, average_score,
      grade_mapping_A, grade_mapping_B, grade_mapping_C] <;>
    decide

/-- Witness for C4 at the triple (A, A, B), sum 8. -/
theorem overall_grade_sum_characterisation_witness :
    (("B" : String) = "A" ∨ ("B" : String) = "B" ∨ ("B" : String) = "C")
    ∧ (overall_grade "A" "A" "B" = "B" ↔
        (6 ≤ grade_mapping "A" + grade_mapping "A" + grade_mapping "B"
          ∧ grade_mapping "A" + grade_mapping "A" + grade_mapping "B" ≤ 8)) := by
  have h := overall_grade_sum_characterisation "A" "A" "B"
    (Or.inl rfl) (Or.inl rfl) (Or.inr (Or.inl rfl))
  exact ⟨Or.inr (Or.inl rfl), h.2.2.1⟩

/-- C5: for a threshold pair with low < high and values v1 < v2, the
grade at v2 is at most the grade at v1 under the ordering A > B > C,
which the score table {A:3, B:2, C:1} represents faithfully — the grade
never improves as the metric value increases. -/
theorem grade_monotone_in_value (low high v1 v2 : ℚ)
    (hlow : low < high) (h : v1 < v2) :
    grade_mapping (grade v2 (low, high)) ≤ grade_mapping (grade v1 (low, high)) := by
  unfold grade
  split_ifs <;> norm_num [grade_mapping_A, grade_mapping_B, grade_mapping_C] <;> linarith

/-- Witness for C5 at the CPU pair (30, 60) with values 10 < 50. -/
theorem grade_monotone_in_value_witness :
    (30 : ℚ) < 60 ∧ (10 : ℚ) < 50
    ∧ grade_mapping (grade 50 ((30 : ℚ), 60)) ≤ grade_mapping (grade 10 ((30 : ℚ), 60)) :=
  ⟨by norm_num, by norm_num, grade_monotone_in_value 30 60 10 50 (by norm_num) (by norm_num)⟩

/-- C6: the aggregation is symmetric — every permutation of the three
grade arguments yields the same overall grade, because the score sum and
hence the mean are invariant under permutation. -/
theorem overall_grade_symmetric (g1 g2 g3 : String) :
    overall_grade g1 g2 g3 = overall_grade g1 g3 g2
    ∧ overall_grade g1 g2 g3 = overall_grade g2 g1 g3
    ∧ overall_grade g1 g2 g3 = overall_grade g2 g3 g1
    ∧ overall_grade g1 g2 g3 = overall_grade g3 g1 g2
    ∧ overall_grade g1 g2 g3 = overall_grade g3 g2 g1 :=
  ⟨overall_grade_eq_of_avg g1 g2 g3 g1 g3 g2 (by unfold average_score; ring),
   overall_grade_eq_of_avg g1 g2 g3 g2 g1 g3 (by unfold average_score; ring),
   overall_grade_eq_of_avg g1 g2 g3 g2 g3 g1 (by unfold average_score; ring),
   overall_grade_eq_of_avg g1 g2 g3 g3 g1 g2 (by unfold average_score; ring),
   overall_grade_eq_of_avg g1 g2 g3 g3 g2 g1 (by unfold average_score; ring)⟩

/-- C7: for every run date the log file name is the eight date digits in
year, day, month order followed by the fixed suffix, matching the spec
wording; at the example date 2026-10-12 this is 20261210 (day digits
before month digits), which differs from the conventional
year-month-day rendering 20261012. -/
theorem log_filename_year_day_month :
    (∀ t : DateTime, log_filename t = log_filename_spec t)
    ∧ log_filename ⟨2026, 10, 12, 0, 0, 0⟩ = "20261210_system_health.log"
    ∧ ("20261210_system_health.log" : String) ≠ "20261012_system_health.log" :=
  ⟨fun _ => rfl, rfl, by decide⟩

/-- C8: running the full report cycle twice on the same calendar date
leaves the log file (named after the first run) holding exactly the
lines of the second run — the truncating open mode "w" destroys the
first run, nothing is appended. -/
theorem rerun_same_day_overwrites (fs : FileState) (t1 t2 : DateTime)
    (c1 m1 d1 c2 m2 d2 : ℚ)
    (hy : t1.year = t2.year) (hm : t1.month = t2.month) (hd : t1.day = t2.day) :
    run_report_cycle (run_report_cycle fs t1 c1 m1 d1) t2 c2 m2 d2 (log_filename t1)
      = (report_lines t2 c2 m2 d2).map Prod.snd
    ∧ run_report_cycle (run_report_cycle fs t1 c1 m1 d1) t2 c2 m2 d2 (log_filename t1)
      ≠ (report_lines t1 c1 m1 d1).map Prod.snd
        ++ (report_lines t2 c2 m2 d2).map Prod.snd := by
  have hname : log_filename t1 = log_filename t2 := by
    simp [log_filename, current_date, strftime, formatDirective, hy, hm, hd]
  rw [hname]
  refine ⟨by simp [run_report_cycle, emit_lines, file_handler_open], ?_⟩
  simp only [run_report_cycle, emit_lines, file_handler_open, if_pos rfl]
  intro hcontra
  have hlen := congrArg List.length hcontra
  simp [report_lines] at hlen

/-- Witness for C8: two same-day runs at 08:00:00 and 20:30:00. -/
theorem rerun_same_day_overwrites_witness :
    (DateTime.mk 2026 10 12 8 0 0).year = (DateTime.mk 2026 10 12 20 30 0).year
    ∧ (DateTime.mk 2026 10 12 8 0 0).month = (DateTime.mk 2026 10 12 20 30 0).month
    ∧ (DateTime.mk 2026 10 12 8 0 0).day = (DateTime.mk 2026 10 12 20 30 0).day
    ∧ (run_report_cycle
        (run_report_cycle (fun _ => []) (DateTime.mk 2026 10 12 8 0 0) 20 40 30)
        (DateTime.mk 2026 10 12 20 30 0) 80 90 85
        (log_filename (DateTime.mk 2026 10 12 8 0 0))
        = (report_lines (DateTime.mk 2026 10 12 20 30 0) 80 90 85).map Prod.snd
      ∧ run_report_cycle
          (run_report_cycle (fun _ => []) (DateTime.mk 2026 10 12 8 0 0) 20 40 30)
          (DateTime.mk 2026 10 12 20 30 0) 80 90 85
          (log_filename (DateTime.mk 2026 10 12 8 0 0))
        ≠ (report_lines (DateTime.mk 2026 10 12 8 0 0) 20 40 30).map Prod.snd
          ++ (report_lines (DateTime.mk 2026 10 12 20 30 0) 80 90 85).map Prod.snd) :=
  ⟨rfl, rfl, rfl,
    rerun_same_day_overwrites (fun _ => []) (DateTime.mk 2026 10 12 8 0 0)
      (DateTime.mk 2026 10 12 20 30 0) 20 40 30 80 90 85 rfl rfl rfl⟩

/-- C9: the report routine has no internal error handling — a failure of
CPU, memory, or disk acquisition, or of a sink write, propagates as the
result of the whole run (no catch, no retry, no partial-report
fallback). -/
theorem report_failures_propagate {ε : Type} (now : DateTime) (e : ε)
    (c m d : ℚ) (mem disk : Except ε ℚ) :
    generate_report_exc now (Except.error e) mem disk (fun _ => Except.ok ())
      = Except.error e
    ∧ generate_report_exc now (Except.ok c) (Except.error e) disk (fun _ => Except.ok ())
      = Except.error e
    ∧ generate_report_exc now (Except.ok c) (Except.ok m) (Except.error e)
        (fun _ => Except.ok ()) = Except.error e
    ∧ generate_report_exc now (Except.ok c) (Except.ok m) (Except.ok d)
        (fun _ => Except.error e) = Except.error e :=
  ⟨rfl, rfl, rfl, rfl⟩

/-- C10: every run emits exactly thirteen records, all at level INFO, in
the fixed order header, generation timestamp, metrics section header,
three raw-percentage lines, grades section header, three letter-grade
lines, overall-grade header, final-grade line, footer. -/
theorem report_body_thirteen_info_lines (now : DateTime) (c m d : ℚ) :
    (report_lines now c m d).length = 13
    ∧ (∀ l ∈ report_lines now c m d, l.1 = LogLevel.INFO)
    ∧ report_lines now c m d =
      [(LogLevel.INFO, "===== System Health Report ====="),
       (LogLevel.INFO, "Report generated on: " ++ strftime now report_generated_fmt),
       (LogLevel.INFO, "System Metrics:"),
       (LogLevel.INFO, "CPU Usage: " ++ str_float c ++ "%"),
       (LogLevel.INFO, "Memory Usage: " ++ str_float m ++ "%"),
       (LogLevel.INFO, "Disk Usage: " ++ str_float d ++ "%"),
       (LogLevel.INFO, "Metric Grades:"),
       (LogLevel.INFO, "CPU Grade: " ++ grade c (30, 60)),
       (LogLevel.INFO, "Memory Grade: " ++ grade m (50, 75)),
       (LogLevel.INFO, "Disk Grade: " ++ grade d (40, 70)),
       (LogLevel.INFO, "Overall System Grade:"),
       (LogLevel.INFO, "Final Grade: "
         ++ overall_grade (grade c (30, 60)) (grade m (50, 75)) (grade d (40, 70))),
       (LogLevel.INFO, "===== End of Report =====")] := by
  refine ⟨rfl, ?_, rfl⟩
  simp [report_lines]

end SystemHealth
